import Mathlib

/-
A shallow embedding of the Pre-Trade Sentinel (src/src/engines/pre_trade_sentinel.py)
together with the parts of the data model it consumes (src/src/core/state.py).

Modelling conventions:
* Python floats are modelled as rationals (ℚ); Python ints as ℤ or ℕ.
* Python `datetime` values are modelled by the three observations the sentinel
  makes of them: a linear epoch-seconds coordinate (for ordering and
  `total_seconds` of differences), a calendar-day index (for `.date()`
  equality) and an hour-of-day (for `.hour`).
* Violation messages (Python f-strings) are modelled structurally: each
  constructor of `Violation` carries exactly the data interpolated into the
  corresponding message.  Strings coming back from the external LLM call are
  kept as `String`.
* The external LLM call (`Groq` client) is modelled by an explicit oracle
  value `LlmCall`: either the call fails in any way (exception, timeout,
  malformed JSON — all caught by the same `except` block in the source) or it
  succeeds with a parsed JSON payload.
* Mutation of the sentinel object is modelled by explicit state passing: the
  mutable fields of `PreTradeSentinel` form `GateState`, and every method is a
  function from (constitution, state, arguments) to its outputs, returning the
  state it leaves behind.
* `inference_time_ms` (a wall-clock measurement) is not modelled.
-/

/-- `TradeIntent.action` (state.py): Literal["buy", "sell", "modify", "cancel"]. -/
inductive TradeAction
  | buy | sell | modify | cancel
  deriving DecidableEq

/-- `TradeIntent.order_type` (state.py): Literal["market", "limit", "stop"]. -/
inductive OrderType
  | market | limit | stop
  deriving DecidableEq

/-- `TradeExecution.status` (state.py): Literal["pending", "executed", "failed", "blocked"]. -/
inductive TradeStatus
  | pending | executed | failed | blocked
  deriving DecidableEq

/-- `SentinelResult.recommended_action` (state.py): Literal["allow", "block", "modify", "delay"]. -/
inductive RecommendedAction
  | allow | block | modify | delay
  deriving DecidableEq

/-- Model of a Python `datetime`: the observations the sentinel makes of one.
`epochSeconds` carries ordering and subtraction (`total_seconds`), `day`
stands for `.date()` and `hour` for `.hour`. -/
structure DateTime where
  epochSeconds : ℚ
  day : ℤ
  hour : ℕ
  deriving DecidableEq

/-- `TradeIntent` (state.py).  `natural_language_prompt` is never read by the
sentinel and is omitted. -/
structure TradeIntent where
  action : TradeAction
  symbol : String
  quantity : ℤ
  order_type : OrderType
  price : Option ℚ
  timestamp : DateTime
  deriving DecidableEq

/-- The caller-supplied `current_portfolio` dict.  The sentinel reads
`portfolio.get("total_value", default)` (with default 0 in the position-limit
check and default 1 in the risk score, hence the `Option`) and
`portfolio.get("current_prices", {}).get(symbol, 100)` (an absent mapping
behaves like the empty association list). -/
structure Portfolio where
  total_value : Option ℚ
  current_prices : List (String × ℚ)
  deriving DecidableEq

/-- `UserConstitution` (state.py), restricted to the fields the sentinel
reads.  (`max_daily_loss`, `block_on_tilt`, `no_trade_zones`, the strategy
fields and `kill_switch_conditions` are never consulted by
pre_trade_sentinel.py and are omitted.) -/
structure UserConstitution where
  max_position_size : ℚ
  max_leverage : ℚ
  min_time_between_trades : ℚ
  max_trades_per_day : ℕ
  block_after_loss_streak : ℕ
  require_cooldown : Bool
  cooldown_duration_minutes : ℚ
  allowed_symbols : Option (List String)
  blocked_symbols : Option (List String)
  max_concentration : ℚ
  trading_hours_only : Bool
  enable_kill_switch : Bool
  deriving DecidableEq

/-- The field defaults declared on `UserConstitution` in state.py. -/
def defaultConstitution : UserConstitution where
  max_position_size := 10000
  max_leverage := 3/2
  min_time_between_trades := 60
  max_trades_per_day := 10
  block_after_loss_streak := 3
  require_cooldown := true
  cooldown_duration_minutes := 30
  allowed_symbols := none
  blocked_symbols := none
  max_concentration := 3/10
  trading_hours_only := true
  enable_kill_switch := true

/-- `TradeExecution` (state.py), restricted to the fields the sentinel reads
(`trade_id`, `sentinel_check` and `market_context` are never consulted). -/
structure TradeExecution where
  intent : TradeIntent
  execution_timestamp : DateTime
  status : TradeStatus
  actual_fill_price : Option ℚ
  deriving DecidableEq

/-- The mutable fields of a `PreTradeSentinel` instance (its `__init__`). -/
structure GateState where
  trade_history : List TradeExecution
  last_trade_time : Option DateTime
  consecutive_losses : ℕ
  cooldown_until : Option DateTime
  deriving DecidableEq

/-- `PreTradeSentinel.__init__`: history empty, no last trade, zero losses,
no cooldown. -/
def initialGateState : GateState where
  trade_history := []
  last_trade_time := none
  consecutive_losses := 0
  cooldown_until := none

/-- A violation message, modelled structurally.  Each constructor corresponds
to one `violations.append(f"...")` site in pre_trade_sentinel.py and carries
the data interpolated into that message.  `llmRisk` wraps a string appended
from the LLM's `additional_risks`. -/
inductive Violation
  | positionSize (value limit : ℚ)
  | leverage (ratio limit : ℚ)
  | concentration (ratio limit : ℚ)
  | tradeInterval (secondsSinceLast minimumRequired : ℚ)
  | dailyLimit (count limit : ℕ)
  | tradingHours (hour : ℕ)
  | symbolNotAllowed (symbol : String)
  | symbolBlocked (symbol : String)
  | lossStreak (count : ℕ)
  | cooldown (remainingMinutes : ℚ)
  | llmRisk (description : String)
  deriving DecidableEq

/-- The `reasoning` f-string of `check_trade`, modelled structurally: one
constructor per decision branch, carrying the interpolated data. -/
inductive Reasoning
  | blockedViolations (count : ℕ) (sample : List Violation)
  | blockedRisk (score : ℚ)
  | caution (score : ℚ)
  | approvedLow (score : ℚ)
  deriving DecidableEq

/-- `SentinelResult` (state.py) without the wall-clock `inference_time_ms`
field.  (state.py constrains `risk_score` with `ge=0, le=1`; the embedding
keeps the raw computed value so that this constraint can be checked.) -/
structure SentinelResult where
  approved : Bool
  violated_rules : List Violation
  risk_score : ℚ
  reasoning : Reasoning
  recommended_action : RecommendedAction
  deriving DecidableEq

/-- Python `a or b` on an optional float: `None` and `0.0` are falsy. -/
def pyOr : Option ℚ → ℚ → ℚ
  | none, d => d
  | some x, d => if x = 0 then d else x

/-- `portfolio.get("current_prices", {}).get(symbol, 100)`. -/
def lookupPrice (prices : List (String × ℚ)) (symbol : String) : ℚ :=
  (prices.lookup symbol).getD 100

/-- `PreTradeSentinel._check_position_limits`. -/
def check_position_limits (c : UserConstitution) (intent : TradeIntent)
    (portfolio : Portfolio) : List Violation :=
  let estimated_price := pyOr intent.price (lookupPrice portfolio.current_prices intent.symbol)
  let position_value := (intent.quantity : ℚ) * estimated_price
  let sizeViolations :=
    if position_value > c.max_position_size then
      [Violation.positionSize position_value c.max_position_size]
    else []
  let total_value := portfolio.total_value.getD 0
  let leverageViolations :=
    if total_value > 0 ∧ position_value / total_value > c.max_leverage then
      [Violation.leverage (position_value / total_value) c.max_leverage]
    else []
  let concentrationViolations :=
    if total_value > 0 ∧ position_value / total_value > c.max_concentration then
      [Violation.concentration (position_value / total_value) c.max_concentration]
    else []
  sizeViolations ++ leverageViolations ++ concentrationViolations

/-- `PreTradeSentinel._check_timing_rules`. -/
def check_timing_rules (c : UserConstitution) (σ : GateState)
    (intent : TradeIntent) : List Violation :=
  let intervalViolations :=
    match σ.last_trade_time with
    | some lastTrade =>
      let time_since_last := intent.timestamp.epochSeconds - lastTrade.epochSeconds
      if time_since_last < c.min_time_between_trades then
        [Violation.tradeInterval time_since_last c.min_time_between_trades]
      else []
    | none => []
  let today_trades :=
    σ.trade_history.filter fun t => t.execution_timestamp.day == intent.timestamp.day
  let dailyViolations :=
    if today_trades.length ≥ c.max_trades_per_day then
      [Violation.dailyLimit today_trades.length c.max_trades_per_day]
    else []
  let hourViolations :=
    if c.trading_hours_only = true ∧ ¬(9 ≤ intent.timestamp.hour ∧ intent.timestamp.hour < 16) then
      [Violation.tradingHours intent.timestamp.hour]
    else []
  intervalViolations ++ dailyViolations ++ hourViolations

/-- `PreTradeSentinel._check_asset_restrictions`.  Python truthiness of the
optional lists: `None` and the empty list are both falsy. -/
def check_asset_restrictions (c : UserConstitution) (intent : TradeIntent) : List Violation :=
  let allowedViolations :=
    match c.allowed_symbols with
    | some allowed =>
      if allowed ≠ [] ∧ intent.symbol ∉ allowed then
        [Violation.symbolNotAllowed intent.symbol]
      else []
    | none => []
  let blockedViolations :=
    match c.blocked_symbols with
    | some blocked =>
      if blocked ≠ [] ∧ intent.symbol ∈ blocked then
        [Violation.symbolBlocked intent.symbol]
      else []
    | none => []
  allowedViolations ++ blockedViolations

/-- Python truthiness of `trade.actual_fill_price`: present and nonzero. -/
def fillTruthy : Option ℚ → Bool
  | none => false
  | some x => decide (x ≠ 0)

/-- The direction-dependent loss test of `_check_behavioral_guards`:
`(action == "sell" and fill < (price or 0)) or (action == "buy" and fill > (price or 0))`.
(`price or 0` sends both `None` and `0.0` to 0, which is `getD 0`.) -/
def behavioralLoss (t : TradeExecution) : Bool :=
  let fp := t.actual_fill_price.getD 0
  let ip := t.intent.price.getD 0
  (decide (t.intent.action = TradeAction.sell) && decide (fp < ip)) ||
  (decide (t.intent.action = TradeAction.buy) && decide (fp > ip))

/-- The loop of `_check_behavioral_guards` over the newest-first window:
entries that are not executed-with-a-truthy-fill are skipped (the loop
`continue`s without breaking); an executed non-loss entry `break`s the count. -/
def lossStreakCount : List TradeExecution → ℕ
  | [] => 0
  | t :: rest =>
    if t.status = TradeStatus.executed ∧ fillTruthy t.actual_fill_price then
      if behavioralLoss t then lossStreakCount rest + 1 else 0
    else lossStreakCount rest

/-- `PreTradeSentinel._check_behavioral_guards`: `trade_history[-10:]`
iterated via `reversed` is the newest-first 10-element window. -/
def check_behavioral_guards (c : UserConstitution) (σ : GateState) : List Violation :=
  let n := lossStreakCount (σ.trade_history.reverse.take 10)
  if n ≥ c.block_after_loss_streak then [Violation.lossStreak n] else []

/-- `PreTradeSentinel._check_cooldown` (`datetime.now()` is passed in as
`now`; a `datetime` object is always truthy). -/
def check_cooldown (σ : GateState) (now : DateTime) : List Violation :=
  match σ.cooldown_until with
  | some cu =>
    if now.epochSeconds < cu.epochSeconds then
      [Violation.cooldown ((cu.epochSeconds - now.epochSeconds) / 60)]
    else []
  | none => []

/-- `PreTradeSentinel._compute_risk_score`.  Note that the price fallback here
is `intent.price or 100` — the portfolio's `current_prices` are not consulted
— and that `total_value` defaults to 1 (not 0) when absent. -/
def compute_risk_score (intent : TradeIntent) (portfolio : Portfolio)
    (violations : List Violation) (consecutive_losses : ℕ) : ℚ :=
  let score1 : ℚ := 0 + (violations.length : ℚ) * (2/10)
  let total_value := portfolio.total_value.getD 1
  let estimated_price := pyOr intent.price 100
  let position_value := (intent.quantity : ℚ) * estimated_price
  let size_ratio := if total_value > 0 then position_value / total_value else 0
  let score2 := score1 + min size_ratio 1 * (3/10)
  let score3 := score2 + (if intent.order_type = OrderType.market then (1/10 : ℚ) else 0)
  let score4 := score3 + min ((consecutive_losses : ℚ) * (15/100)) (4/10)
  min score4 1

/-- The outcome of the external reasoning call, as an explicit oracle value.
`failure` stands for every path caught by the `except` block of
`_llm_risk_assessment` (transport error, timeout, non-JSON or malformed
response); `success` carries the parsed JSON payload, each key optional
(`dict.get`). -/
inductive LlmCall
  | failure
  | success (additional_risks : List String) (adjusted_risk_score : Option ℚ)
  deriving DecidableEq

/-- The dictionary `_llm_risk_assessment` hands back to `check_trade`. -/
structure LlmAssessment where
  additional_risks : List String
  adjusted_risk_score : Option ℚ
  deriving DecidableEq

/-- `PreTradeSentinel._llm_risk_assessment`: on any exception it returns the
neutral default `{"additional_risks": [], "adjusted_risk_score": 0.5}`. -/
def llm_risk_assessment : LlmCall → LlmAssessment
  | LlmCall.failure => { additional_risks := [], adjusted_risk_score := some (5/10) }
  | LlmCall.success risks adjusted => { additional_risks := risks, adjusted_risk_score := adjusted }

/-- The escalation block of `check_trade` (lines 59-65): the LLM is consulted
only for `0.3 < risk_score < 0.7`; its additional risks (if any — an empty
list is falsy) are appended and the score is raised to at least the adjusted
score (`dict.get` defaulting to the current score). -/
def escalate (risk_score : ℚ) (violated_rules : List Violation) (llm : LlmCall) :
    List Violation × ℚ :=
  if 3/10 < risk_score ∧ risk_score < 7/10 then
    if (llm_risk_assessment llm).additional_risks = [] then
      (violated_rules, risk_score)
    else
      (violated_rules ++ (llm_risk_assessment llm).additional_risks.map Violation.llmRisk,
       max risk_score ((llm_risk_assessment llm).adjusted_risk_score.getD risk_score))
  else (violated_rules, risk_score)

/-- The decision cascade of `check_trade` (lines 67-83). -/
def finalDecision (c : UserConstitution) (violated_rules : List Violation)
    (risk_score : ℚ) : Bool × RecommendedAction × Reasoning :=
  if c.enable_kill_switch = true ∧ violated_rules ≠ [] then
    (false, RecommendedAction.block,
     Reasoning.blockedViolations violated_rules.length (violated_rules.take 3))
  else if risk_score > 8/10 then
    (false, RecommendedAction.block, Reasoning.blockedRisk risk_score)
  else if risk_score > 5/10 then
    (true, RecommendedAction.delay, Reasoning.caution risk_score)
  else
    (true, RecommendedAction.allow, Reasoning.approvedLow risk_score)

/-- The five deterministic check stages of `check_trade`, in source order. -/
def deterministicViolations (c : UserConstitution) (σ : GateState)
    (intent : TradeIntent) (portfolio : Portfolio) (now : DateTime) : List Violation :=
  check_position_limits c intent portfolio ++ check_timing_rules c σ intent ++
  check_asset_restrictions c intent ++ check_behavioral_guards c σ ++ check_cooldown σ now

/-- The deterministic (pre-escalation) risk score of a `check_trade` call. -/
def deterministicScore (c : UserConstitution) (σ : GateState)
    (intent : TradeIntent) (portfolio : Portfolio) (now : DateTime) : ℚ :=
  compute_risk_score intent portfolio (deterministicViolations c σ intent portfolio now)
    σ.consecutive_losses

/-- Everything one `check_trade` call produces: the returned `SentinelResult`,
whether the external LLM call was made, and the gate state left behind. -/
structure CheckOutput where
  result : SentinelResult
  llm_called : Bool
  state : GateState

/-- `PreTradeSentinel.check_trade`.  `now` models `datetime.now()` (read by
the cooldown check); `llm` is the external-call oracle. -/
def check_trade (c : UserConstitution) (σ : GateState) (intent : TradeIntent)
    (portfolio : Portfolio) (now : DateTime) (llm : LlmCall) : CheckOutput :=
  let violated0 := deterministicViolations c σ intent portfolio now
  let score0 := deterministicScore c σ intent portfolio now
  let e := escalate score0 violated0 llm
  let d := finalDecision c e.1 e.2
  { result :=
      { approved := d.1
        violated_rules := e.1
        risk_score := e.2
        reasoning := d.2.2
        recommended_action := d.2.1 }
    llm_called := decide (3/10 < score0 ∧ score0 < 7/10)
    state := σ }

/-- The loss classification of `update_trade_history`:
`intent_price = trade.intent.price or trade.actual_fill_price`, then
`abs(fill - intent_price) > intent_price * 0.02`. -/
def recordLoss (trade : TradeExecution) : Bool :=
  let fp := trade.actual_fill_price.getD 0
  let intent_price := pyOr trade.intent.price fp
  decide (|fp - intent_price| > intent_price * (2/100))

/-- `datetime.now() + timedelta(minutes=m)`, observed only through
`epochSeconds` (the sentinel never reads `.date()` or `.hour` of a cooldown
expiry). -/
def addMinutes (t : DateTime) (m : ℚ) : DateTime :=
  { t with epochSeconds := t.epochSeconds + 60 * m }

/-- `PreTradeSentinel.trigger_cooldown`: `duration_minutes or
constitution.cooldown_duration_minutes` (0 is falsy), expiry at now plus that
many minutes. -/
def trigger_cooldown (c : UserConstitution) (σ : GateState)
    (duration_minutes : Option ℚ) (now : DateTime) : GateState :=
  let duration := pyOr duration_minutes c.cooldown_duration_minutes
  { σ with cooldown_until := some (addMinutes now duration) }

/-- `PreTradeSentinel.update_trade_history`: append, stamp the last-trade
time, update the loss counter only for an executed trade with a truthy fill
price, then auto-trigger the cooldown when `require_cooldown` is set and the
(possibly untouched) counter is at least 3. -/
def update_trade_history (c : UserConstitution) (σ : GateState)
    (trade : TradeExecution) (now : DateTime) : GateState :=
  let σ1 : GateState :=
    { σ with trade_history := σ.trade_history ++ [trade]
             last_trade_time := some trade.execution_timestamp }
  let σ2 : GateState :=
    if trade.status = TradeStatus.executed ∧ fillTruthy trade.actual_fill_price then
      { σ1 with consecutive_losses := if recordLoss trade then σ1.consecutive_losses + 1 else 0 }
    else σ1
  if c.require_cooldown = true ∧ 3 ≤ σ2.consecutive_losses then
    trigger_cooldown c σ2 none now
  else σ2

/-- The risk-score formula exactly as claim C4 words it, for comparison with
`compute_risk_score`: position value uses `intent.price` if set, else the
portfolio's current price for the symbol, else the default placeholder 100;
the final score is clamped to the interval [0, 1].  (`total_value` is read the
way `_compute_risk_score` reads it, defaulting to 1 when absent; the claim
presumes it present.) -/
def claimedRiskScore (intent : TradeIntent) (portfolio : Portfolio)
    (violations : List Violation) (consecutive_losses : ℕ) : ℚ :=
  let estimated_price :=
    match intent.price with
    | some p => p
    | none => (portfolio.current_prices.lookup intent.symbol).getD 100
  let position_value := (intent.quantity : ℚ) * estimated_price
  let size_ratio := position_value / portfolio.total_value.getD 1
  let raw := (2/10) * (violations.length : ℚ) + (3/10) * min size_ratio 1 +
    (if intent.order_type = OrderType.market then (1/10 : ℚ) else 0) +
    min ((15/100) * (consecutive_losses : ℚ)) (4/10)
  max 0 (min raw 1)

/-- Claim C4 amended: the risk-score formula with the price fallback the code
actually uses (`intent.price or 100`, never `current_prices`), a size ratio of
0 when `total_value` is not positive, and a clamp from above only. -/
def amendedRiskScore (intent : TradeIntent) (portfolio : Portfolio)
    (violations : List Violation) (consecutive_losses : ℕ) : ℚ :=
  let estimated_price := pyOr intent.price 100
  let position_value := (intent.quantity : ℚ) * estimated_price
  let total_value := portfolio.total_value.getD 1
  let size_ratio := if total_value > 0 then position_value / total_value else 0
  min ((2/10) * (violations.length : ℚ) + (3/10) * min size_ratio 1 +
    (if intent.order_type = OrderType.market then (1/10 : ℚ) else 0) +
    min ((15/100) * (consecutive_losses : ℚ)) (4/10)) 1

/-- The loss-counter update exactly as claim C7 words it: increment when the
fill is classified as a loss (fill price deviating from the intended price
beyond the 2% tolerance band; a record without a fill is not a loss), reset to
zero otherwise. -/
def c7ClaimedLoss (trade : TradeExecution) : Bool :=
  match trade.actual_fill_price with
  | none => false
  | some fp =>
    let intent_price := trade.intent.price.getD fp
    decide (|fp - intent_price| > intent_price * (2/100))

/-- Claim C7's counter after one `recordOutcome` call, as the claim words it. -/
def c7ClaimedCounter (previous : ℕ) (trade : TradeExecution) : ℕ :=
  if c7ClaimedLoss trade then previous + 1 else 0

/-- The behavioural-guard scan exactly as claim C8 words it: a contiguous run
of losing executions from the newest entry, stopping as soon as a non-loss
entry (of any kind) is encountered. -/
def c8ClaimedStreak : List TradeExecution → ℕ
  | [] => 0
  | t :: rest =>
    if t.status = TradeStatus.executed ∧ fillTruthy t.actual_fill_price ∧ behavioralLoss t then
      c8ClaimedStreak rest + 1
    else 0

/-- A timestamp inside market hours, used by the concrete inputs below. -/
def tradingHourStamp : DateTime where
  epochSeconds := 36000
  day := 0
  hour := 10

/-- A buy intent with no limit price, for a symbol the portfolio prices at
200: the input on which the claimed and the implemented price fallback of the
risk score differ. -/
def unpricedIntent : TradeIntent where
  action := TradeAction.buy
  symbol := "AAPL"
  quantity := 1
  order_type := OrderType.limit
  price := none
  timestamp := tradingHourStamp

/-- A portfolio that prices AAPL at 200 with a total value of 1000. -/
def pricedPortfolio : Portfolio where
  total_value := some 1000
  current_prices := [("AAPL", 200)]

/-- A pathological intent: a negative quantity at a positive limit price. -/
def negativeQuantityIntent : TradeIntent where
  action := TradeAction.buy
  symbol := "AAPL"
  quantity := -1
  order_type := OrderType.limit
  price := some 100
  timestamp := tradingHourStamp

/-- A small all-cash portfolio with no known prices. -/
def smallPortfolio : Portfolio where
  total_value := some 100
  current_prices := []

/-- A constitution whose block-list holds GME. -/
def gmeConstitution : UserConstitution :=
  { defaultConstitution with blocked_symbols := some ["GME"] }

/-- An intent to buy 100 GME at a limit price of 20, inside market hours. -/
def gmeIntent : TradeIntent where
  action := TradeAction.buy
  symbol := "GME"
  quantity := 100
  order_type := OrderType.limit
  price := some 20
  timestamp := tradingHourStamp

/-- A comfortable portfolio for the GME scenario. -/
def gmePortfolio : Portfolio where
  total_value := some 100000
  current_prices := []

/-- A gate state carrying one consecutive loss and nothing else. -/
def oneLossState : GateState where
  trade_history := []
  last_trade_time := none
  consecutive_losses := 1
  cooldown_until := none

/-- A pending execution record with no fill price. -/
def pendingTrade : TradeExecution where
  intent := unpricedIntent
  execution_timestamp := tradingHourStamp
  status := TradeStatus.pending
  actual_fill_price := none

/-- An executed buy at limit 10 filled at 11: a behavioural loss. -/
def losingTrade : TradeExecution where
  intent :=
    { action := TradeAction.buy
      symbol := "AAPL"
      quantity := 1
      order_type := OrderType.limit
      price := some 10
      timestamp := tradingHourStamp }
  execution_timestamp := tradingHourStamp
  status := TradeStatus.executed
  actual_fill_price := some 11

/-- A constitution that blocks after a streak of 2. -/
def streakConstitution : UserConstitution :=
  { defaultConstitution with block_after_loss_streak := 2 }

/-- A history of loss, pending, loss (oldest first): newest-to-oldest the
scan meets loss, pending, loss. -/
def interruptedStreakState : GateState where
  trade_history := [losingTrade, pendingTrade, losingTrade]
  last_trade_time := none
  consecutive_losses := 0
  cooldown_until := none

/-- `escalate` never drops violations: the list it returns extends the input
list on the right. -/
theorem escalate_violations_extend (s : ℚ) (v : List Violation) (llm : LlmCall) :
    ∃ extra, (escalate s v llm).1 = v ++ extra := by
  unfold escalate
  split
  · split
    · exact ⟨[], (List.append_nil v).symm⟩
    · exact ⟨_, rfl⟩
  · exact ⟨[], (List.append_nil v).symm⟩

/-- When the external call fails, `escalate` leaves both outputs unchanged. -/
theorem escalate_failure (s : ℚ) (v : List Violation) :
    escalate s v LlmCall.failure = (v, s) := by
  unfold escalate llm_risk_assessment
  split <;> simp

/-- A block-listed symbol always yields its violation in the asset check. -/
theorem blocked_symbol_violation (c : UserConstitution) (intent : TradeIntent)
    (blocked : List String) (hb : c.blocked_symbols = some blocked)
    (hm : intent.symbol ∈ blocked) :
    Violation.symbolBlocked intent.symbol ∈ check_asset_restrictions c intent := by
  unfold check_asset_restrictions
  rw [hb]
  refine List.mem_append_right _ ?_
  show Violation.symbolBlocked intent.symbol ∈
    if blocked ≠ [] ∧ intent.symbol ∈ blocked then [Violation.symbolBlocked intent.symbol] else []
  rw [if_pos ⟨List.ne_nil_of_mem hm, hm⟩]
  exact List.mem_singleton.mpr rfl

/-- Claim C1: whenever the constitution's kill switch is enabled and the
evaluation produces at least one violation, `check_trade` returns
approved = false with recommended_action = block and a reasoning that names
the violation count and the first (up to) 3 violation messages; in
particular an intent whose symbol is on the configured block-list is rejected
this way, whatever its size and timing. -/
theorem kill_switch_blocks_violations (c : UserConstitution) (σ : GateState)
    (intent : TradeIntent) (portfolio : Portfolio) (now : DateTime) (llm : LlmCall)
    (hk : c.enable_kill_switch = true) :
    ((check_trade c σ intent portfolio now llm).result.violated_rules ≠ [] →
      (check_trade c σ intent portfolio now llm).result.approved = false ∧
      (check_trade c σ intent portfolio now llm).result.recommended_action =
        RecommendedAction.block ∧
      (check_trade c σ intent portfolio now llm).result.reasoning =
        Reasoning.blockedViolations
          (check_trade c σ intent portfolio now llm).result.violated_rules.length
          ((check_trade c σ intent portfolio now llm).result.violated_rules.take 3)) ∧
    (∀ blocked, c.blocked_symbols = some blocked → intent.symbol ∈ blocked →
      (check_trade c σ intent portfolio now llm).result.approved = false ∧
      (check_trade c σ intent portfolio now llm).result.recommended_action =
        RecommendedAction.block) := by
  have key : ∀ (v : List Violation) (s : ℚ), v ≠ [] →
      finalDecision c v s =
        (false, RecommendedAction.block, Reasoning.blockedViolations v.length (v.take 3)) := by
    intro v s hv
    unfold finalDecision
    rw [if_pos ⟨hk, hv⟩]
  constructor
  · intro hv
    simp only [check_trade] at hv ⊢
    rw [key _ _ hv]
    exact ⟨rfl, rfl, rfl⟩
  · intro blocked hb hm
    have hmem : Violation.symbolBlocked intent.symbol ∈
        deterministicViolations c σ intent portfolio now := by
      unfold deterministicViolations
      exact List.mem_append_left _ (List.mem_append_left _
        (List.mem_append_right _ (blocked_symbol_violation c intent blocked hb hm)))
    obtain ⟨extra, hex⟩ := escalate_violations_extend
      (deterministicScore c σ intent portfolio now)
      (deterministicViolations c σ intent portfolio now) llm
    have hv : (escalate (deterministicScore c σ intent portfolio now)
        (deterministicViolations c σ intent portfolio now) llm).1 ≠ [] := by
      rw [hex]
      intro hnil
      exact List.ne_nil_of_mem hmem (List.append_eq_nil.mp hnil).1
    simp only [check_trade]
    rw [key _ _ hv]
    exact ⟨rfl, rfl⟩

/-- Witness for C1 at a concrete input: kill switch on, GME block-listed, a
buy of 100 GME at 20 is rejected with a block. -/
theorem kill_switch_blocks_violations_witness :
    gmeConstitution.enable_kill_switch = true ∧
    (check_trade gmeConstitution initialGateState gmeIntent gmePortfolio
      tradingHourStamp LlmCall.failure).result.approved = false ∧
    (check_trade gmeConstitution initialGateState gmeIntent gmePortfolio
      tradingHourStamp LlmCall.failure).result.recommended_action = RecommendedAction.block :=
  ⟨rfl, (kill_switch_blocks_violations gmeConstitution initialGateState gmeIntent
    gmePortfolio tradingHourStamp LlmCall.failure rfl).2 ["GME"] rfl (by decide)⟩

/-- Claim C2: the external reasoning call is made if and only if the
deterministic risk score lies strictly between 0.3 and 0.7; outside this band
it is never made. -/
theorem llm_called_iff_ambiguous_band (c : UserConstitution) (σ : GateState)
    (intent : TradeIntent) (portfolio : Portfolio) (now : DateTime) (llm : LlmCall) :
    (check_trade c σ intent portfolio now llm).llm_called = true ↔
      (3/10 < deterministicScore c σ intent portfolio now ∧
       deterministicScore c σ intent portfolio now < 7/10) := by
  simp only [check_trade, decide_eq_true_eq]

/-- Claim C3: when the escalation call fails in any way (the single `except`
branch of `_llm_risk_assessment`), `check_trade` still returns a result whose
risk score is the pre-escalation deterministic score and whose violation list
is the pre-escalation list; the embedding is a total function, so no
exception reaches the caller. -/
theorem escalation_failure_neutral (c : UserConstitution) (σ : GateState)
    (intent : TradeIntent) (portfolio : Portfolio) (now : DateTime) :
    (check_trade c σ intent portfolio now LlmCall.failure).result.risk_score =
      deterministicScore c σ intent portfolio now ∧
    (check_trade c σ intent portfolio now LlmCall.failure).result.violated_rules =
      deterministicViolations c σ intent portfolio now := by
  simp [check_trade, escalate_failure]

/-- Counterexample to claim C4 as stated.  With no limit price, a portfolio
price of 200 for the symbol and a total value of 1000, the claimed formula
(which consults `current_prices`) gives 3/50 while `_compute_risk_score`
(whose fallback is `intent.price or 100`) gives 3/100; and with a negative
position value the claimed clamp to [0, 1] gives 0 while the code (which only
clamps from above) gives -3/10. -/
theorem risk_formula_price_fallback_cex :
    claimedRiskScore unpricedIntent pricedPortfolio [] 0 ≠
      compute_risk_score unpricedIntent pricedPortfolio [] 0 ∧
    claimedRiskScore negativeQuantityIntent smallPortfolio [] 0 ≠
      compute_risk_score negativeQuantityIntent smallPortfolio [] 0 := by
  constructor
  · simp [claimedRiskScore, compute_risk_score, unpricedIntent, pricedPortfolio,
      pyOr, lookupPrice, List.lookup, beq_iff_eq]
    norm_num
  · simp [claimedRiskScore, compute_risk_score, negativeQuantityIntent, smallPortfolio,
      pyOr, lookupPrice, List.lookup]

/-- Claim C4 amended: the deterministic risk score equals
0.2 × violation_count, plus 0.3 × min(size_ratio, 1.0) where size_ratio is
position_value / total_value when total_value > 0 (0 otherwise, with
total_value defaulting to 1 when absent) and position_value is
quantity × (intent.price if set and nonzero, else the placeholder 100 — the
portfolio's current_prices are not consulted here), plus 0.1 for a market
order, plus min(0.15 × consecutive_losses, 0.4), clamped from above at 1 (no
clamp from below). -/
theorem risk_score_amended_formula (intent : TradeIntent) (portfolio : Portfolio)
    (violations : List Violation) (consecutive_losses : ℕ) :
    compute_risk_score intent portfolio violations consecutive_losses =
      amendedRiskScore intent portfolio violations consecutive_losses := by
  unfold compute_risk_score amendedRiskScore
  ring_nf

/-- Claim C5 (code bug): at a pathological but accepted input — quantity -1
at limit price 100 against a 100-value portfolio — every rule check passes,
yet the computed risk score is -3/10, outside [0, 1]: `_compute_risk_score`
clamps only from above, contradicting its own docstring ("normalized risk
score 0-1") and the `ge=0` constraint `SentinelResult` declares on
`risk_score`. -/
theorem risk_score_negative_example :
    (check_trade defaultConstitution initialGateState negativeQuantityIntent
      smallPortfolio tradingHourStamp LlmCall.failure).result.violated_rules = [] ∧
    (check_trade defaultConstitution initialGateState negativeQuantityIntent
      smallPortfolio tradingHourStamp LlmCall.failure).result.risk_score < 0 := by
  simp [check_trade, deterministicViolations, deterministicScore, compute_risk_score,
    check_position_limits, check_timing_rules, check_asset_restrictions,
    check_behavioral_guards, check_cooldown, lossStreakCount, escalate, llm_risk_assessment,
    finalDecision, defaultConstitution, initialGateState, negativeQuantityIntent,
    smallPortfolio, tradingHourStamp, pyOr, lookupPrice]
  norm_num

/-- Claim C6: `check_trade` never mutates the gate's behavioural state — the
history, last-trade timestamp, consecutive-loss counter and cooldown expiry
it hands back are the ones it was given (in the source, `check_trade`
contains no write to any of these fields; only `update_trade_history` and
`trigger_cooldown` assign them). -/
theorem check_trade_state_frame (c : UserConstitution) (σ : GateState)
    (intent : TradeIntent) (portfolio : Portfolio) (now : DateTime) (llm : LlmCall) :
    (check_trade c σ intent portfolio now llm).state.trade_history = σ.trade_history ∧
    (check_trade c σ intent portfolio now llm).state.last_trade_time = σ.last_trade_time ∧
    (check_trade c σ intent portfolio now llm).state.consecutive_losses = σ.consecutive_losses ∧
    (check_trade c σ intent portfolio now llm).state.cooldown_until = σ.cooldown_until :=
  ⟨rfl, rfl, rfl, rfl⟩

/-- Counterexample to claim C7 as stated.  Recording a pending execution with
no fill price while the counter stands at 1: the claim ("increments if the
fill is classified as a loss and resets the counter to zero otherwise")
demands a reset to 0, but `update_trade_history` only touches the counter for
an executed trade with a truthy fill price and leaves it at 1. -/
theorem record_outcome_counter_cex :
    (update_trade_history defaultConstitution oneLossState pendingTrade
      tradingHourStamp).consecutive_losses = 1 ∧
    c7ClaimedCounter oneLossState.consecutive_losses pendingTrade = 0 ∧
    (1 : ℕ) ≠ 0 := by
  refine ⟨?_, rfl, one_ne_zero⟩
  simp [update_trade_history, trigger_cooldown, oneLossState, pendingTrade,
    fillTruthy, defaultConstitution]

/-- Claim C7 amended: `update_trade_history` appends the execution to the
history and stamps the last-trade time; it updates the loss counter only when
the record is an executed trade with a known nonzero fill price (increment on
a loss beyond the 2% band, reset to zero otherwise; any other record leaves
the counter unchanged); and when `require_cooldown` is enabled and the
updated counter is at least 3 it sets the cooldown expiry to now plus the
configured duration. -/
theorem record_outcome_amended (c : UserConstitution) (σ : GateState)
    (trade : TradeExecution) (now : DateTime) :
    (update_trade_history c σ trade now).trade_history = σ.trade_history ++ [trade] ∧
    (update_trade_history c σ trade now).last_trade_time = some trade.execution_timestamp ∧
    (update_trade_history c σ trade now).consecutive_losses =
      (if trade.status = TradeStatus.executed ∧ fillTruthy trade.actual_fill_price then
        (if recordLoss trade then σ.consecutive_losses + 1 else 0)
       else σ.consecutive_losses) ∧
    (update_trade_history c σ trade now).cooldown_until =
      (if c.require_cooldown = true ∧
          3 ≤ (if trade.status = TradeStatus.executed ∧ fillTruthy trade.actual_fill_price then
                (if recordLoss trade then σ.consecutive_losses + 1 else 0)
               else σ.consecutive_losses) then
        some (addMinutes now c.cooldown_duration_minutes)
       else σ.cooldown_until) := by
  unfold update_trade_history trigger_cooldown pyOr
  refine ⟨?_, ?_, ?_, ?_⟩ <;> (split <;> split <;> simp_all) <;> (try split) <;> simp_all

/-- Counterexample to claim C8 as stated.  History (oldest first): a losing
execution, a pending record with no fill, a losing execution; threshold 2.
The code's scan skips the pending record without breaking and counts a streak
of 2, reporting a violation, while the claim's scan ("stops as soon as a
non-loss entry is encountered") counts 1, below the threshold. -/
theorem behavioral_guard_skip_cex :
    check_behavioral_guards streakConstitution interruptedStreakState =
      [Violation.lossStreak 2] ∧
    c8ClaimedStreak (interruptedStreakState.trade_history.reverse.take 10) = 1 ∧
    ¬(2 ≤ (1 : ℕ)) := by
  refine ⟨?_, ?_, by norm_num⟩
  · simp [check_behavioral_guards, lossStreakCount, streakConstitution,
      interruptedStreakState, losingTrade, pendingTrade, behavioralLoss, fillTruthy,
      defaultConstitution, unpricedIntent]
    norm_num
  · simp [c8ClaimedStreak, interruptedStreakState, losingTrade, pendingTrade,
      behavioralLoss, fillTruthy, unpricedIntent]
    norm_num

/-- Claim C8 amended: the behavioural guard counts, over the newest-first
window of the 10 most recent history entries, a contiguous run of losing
executions in which entries that are not executed-with-a-known-fill are
skipped without breaking the run, stopping at the first executed entry that
is not a loss; it reports the violation (carrying that count) if and only if
the count meets or exceeds the configured loss-streak threshold. -/
theorem behavioral_guard_amended (c : UserConstitution) (σ : GateState) :
    check_behavioral_guards c σ =
      (if c.block_after_loss_streak ≤ lossStreakCount (σ.trade_history.reverse.take 10) then
        [Violation.lossStreak (lossStreakCount (σ.trade_history.reverse.take 10))]
       else []) ∧
    (check_behavioral_guards c σ ≠ [] ↔
      c.block_after_loss_streak ≤ lossStreakCount (σ.trade_history.reverse.take 10)) := by
  constructor
  · rfl
  · simp only [check_behavioral_guards, ne_eq]
    split <;> simp_all

/-- Claim C9: with the intent, the portfolio and the loss counter fixed, the
risk score is monotonically non-decreasing in the number of violations passed
to the aggregation. -/
theorem risk_score_monotone_in_violations (intent : TradeIntent) (portfolio : Portfolio)
    (consecutive_losses : ℕ) (v w : List Violation) (h : v.length ≤ w.length) :
    compute_risk_score intent portfolio v consecutive_losses ≤
      compute_risk_score intent portfolio w consecutive_losses := by
  unfold compute_risk_score
  refine min_le_min ?_ le_rfl
  gcongr

/-- Witness for C9 at a concrete input: adding one violation to the empty
list never lowers the score. -/
theorem risk_score_monotone_in_violations_witness :
    ([] : List Violation).length ≤ [Violation.tradingHours 3].length ∧
    compute_risk_score gmeIntent gmePortfolio [] 0 ≤
      compute_risk_score gmeIntent gmePortfolio [Violation.tradingHours 3] 0 :=
  ⟨Nat.zero_le 1,
   risk_score_monotone_in_violations gmeIntent gmePortfolio 0 [] [Violation.tradingHours 3]
     (Nat.zero_le 1)⟩

/-- Claim C10: every result of `check_trade` has approved = true exactly when
the recommended action is allow or delay, approved = false exactly when it is
block, and the action modify (though allowed by the result type) is never
produced. -/
theorem approved_iff_recommended_action (c : UserConstitution) (σ : GateState)
    (intent : TradeIntent) (portfolio : Portfolio) (now : DateTime) (llm : LlmCall) :
    ((check_trade c σ intent portfolio now llm).result.approved = true ↔
      (check_trade c σ intent portfolio now llm).result.recommended_action =
        RecommendedAction.allow ∨
      (check_trade c σ intent portfolio now llm).result.recommended_action =
        RecommendedAction.delay) ∧
    ((check_trade c σ intent portfolio now llm).result.approved = false ↔
      (check_trade c σ intent portfolio now llm).result.recommended_action =
        RecommendedAction.block) ∧
    (check_trade c σ intent portfolio now llm).result.recommended_action ≠
      RecommendedAction.modify := by
  have key : ∀ (v : List Violation) (s : ℚ),
      ((finalDecision c v s).1 = true ↔
        (finalDecision c v s).2.1 = RecommendedAction.allow ∨
        (finalDecision c v s).2.1 = RecommendedAction.delay) ∧
      ((finalDecision c v s).1 = false ↔
        (finalDecision c v s).2.1 = RecommendedAction.block) ∧
      (finalDecision c v s).2.1 ≠ RecommendedAction.modify := by
    intro v s
    unfold finalDecision
    split
    · simp
    · split
      · simp
      · split <;> simp
  simp only [check_trade]
  exact key _ _
